import Mathlib

/-!
Verification development for the channel state machine of a Twitch drops
miner (`channel.py`).

The Python source is shallowly embedded: every method of `Stream` and
`Channel` that the specification talks about becomes a Lean function over
explicit state.  Side effects are made explicit:

* mutation of a `Channel`'s attributes becomes state passing
  (`Channel → ... → Channel`);
* the GraphQL collaborator (`self._twitch.gql_request`) is a parameter of
  type `Option GqlResponse`; per the collaborator contract it returns a
  structured response or an empty/falsy value on failure, and `get_stream`
  guards on truthiness (`if response:`);
* Python exceptions (`int()` on a malformed string, the `assert` in
  `_encode_payload`, `MinerException`) become `Except PyErr`;
* the asyncio task scheduled by `set_online` becomes a task identifier
  recorded in the channel state, together with a cancellation set; the
  body of `_online_delay` becomes a state transformer `run_online_delay`
  that fires only if the task has not been cancelled;
* HTTP traffic (`session.get` / `session.post`) becomes an environment of
  response texts plus an explicit trace of the requests performed;
* `datetime.now(timezone.utc)` becomes a `now : Nat` parameter.

Wire values whose Python type varies (the id fields, which arrive as JSON
strings in one shape and are `int(...)`-coerced in some code paths but not
others) are embedded as `PyVal`, a sum of Python ints and strings.
-/

namespace Tdm

/-- A dynamically typed Python value as it appears in the decoded JSON wire
data: either an `int` or a `str`.  Only these two cases arise in the id
fields the code reads. -/
inductive PyVal where
  | int (n : Int) : PyVal
  | str (s : String) : PyVal
deriving DecidableEq, Repr

/-- Parses a plain run of decimal digits, as `int()` accepts. -/
def parseDigits (cs : List Char) : Option Nat :=
  if cs = [] then none
  else if cs.all Char.isDigit then
    some (cs.foldl (fun a c => a * 10 + (c.toNat - 48)) 0)
  else none

/-- Python's `int(...)` builtin on a `PyVal`: the identity on ints, decimal
parsing on strings (optionally signed), `none` when `int()` would raise
`ValueError`. -/
def pyInt : PyVal → Option Int
  | .int n => some n
  | .str s =>
    match s.data with
    | '-' :: rest => (parseDigits rest).map (fun n => -(n : Int))
    | '+' :: rest => (parseDigits rest).map (fun n => (n : Int))
    | cs => (parseDigits cs).map (fun n => (n : Int))

/-- A Python exception, by kind.  `miner` carries the message of a
`MinerException` (the `exceptions` module is outside the excerpt; the spec
describes it as a distinguishable error kind carrying a message). -/
inductive PyErr where
  | valueError : PyErr
  | typeError : PyErr
  | assertionError : PyErr
  | miner (msg : String) : PyErr
deriving DecidableEq, Repr

/-- Modelled from the spec: `DROPS_ENABLED_TAG` lives in the `constants`
module, outside the excerpt.  The spec only says it is "a specific platform
tag id"; its concrete value is irrelevant to every claim, so it is an
uninterpreted string token here. -/
def DROPS_ENABLED_TAG : String := "drops-enabled-tag-id"

/-- Modelled from the spec: `BASE_URL` lives in the `constants` module,
outside the excerpt.  The spec only says `url = base_url + "/" + name`. -/
def BASE_URL : String := "base-url"

/-- An entry of a stream's tag list on the wire; the code only reads its
`"id"` field. -/
structure TagData where
  id : String
deriving DecidableEq, Repr

/-- The wire game object (`settings["game"]` / `data["game"]`); the code
passes it to `Game(...)` unexamined. -/
structure GameData where
  name : String
deriving DecidableEq, Repr

/-- Modelled from the spec: `inventory.Game` is outside the excerpt; the
spec treats it as an opaque value built from the wire game object. -/
structure Game where
  raw : GameData
deriving DecidableEq, Repr

/-- The nested `"stream"` object of a GetStreamInfo response.  Its `"id"`
field is the broadcast id, a JSON string on the wire, hence a `PyVal`. -/
structure StreamData where
  id : PyVal
  viewersCount : Int
  tags : List TagData
deriving DecidableEq, Repr

/-- The `"broadcastSettings"` object of a GetStreamInfo response. -/
structure BroadcastSettings where
  game : Option GameData
  title : String
deriving DecidableEq, Repr

/-- The `"user"` object of a GetStreamInfo response
(`response["data"]["user"]`).  `stream` is `None` when the channel is not
live; its truthiness is what `get_stream` branches on. -/
structure UserData where
  id : PyVal
  stream : Option StreamData
  broadcastSettings : BroadcastSettings
deriving DecidableEq, Repr

/-- A truthy GetStreamInfo response; `Option GqlResponse` with `none` for
the empty/falsy result is what `gql_request` yields. -/
structure GqlResponse where
  user : UserData
deriving DecidableEq, Repr

/-- A directory-listing entry as passed to `Stream.from_directory`: the
flatter wire shape, with the tag list and game directly on the entry.  Its
`"id"` field arrives as a JSON string, hence a `PyVal`. -/
structure DirData where
  id : PyVal
  viewersCount : Int
  tags : List TagData
  game : GameData
  title : String
deriving DecidableEq, Repr

/-- The `Stream` snapshot value object.  The `channel` / `_twitch`
back-references are omitted (they carry no data the spec's claims touch);
`_timestamp` becomes the `timestamp` field, filled from the `now`
parameter.  `broadcast_id` is a `PyVal` because `from_directory` stores the
wire value without coercion while `__init__` stores an `int(...)` result. -/
structure Stream where
  broadcast_id : PyVal
  viewer_count : Int
  drops_enabled : Bool
  game : Option Game
  title : String
  timestamp : Nat
deriving DecidableEq, Repr

/-- `Stream.__init__(self, channel, data)`: `data` is the `"user"` object;
reads `data["stream"]` (raising `TypeError` if it is `None`, though
`get_stream` only calls this when it is truthy), coerces the broadcast id
with `int(...)`, computes `drops_enabled` from the tag list, and wraps the
game object when it is not `None`. -/
def Stream.init (data : UserData) (now : Nat) : Except PyErr Stream :=
  match data.stream with
  | none => .error .typeError
  | some stream =>
    match pyInt stream.id with
    | none => .error .valueError
    | some bid =>
      .ok { broadcast_id := PyVal.int bid
            viewer_count := stream.viewersCount
            drops_enabled := stream.tags.any (fun tag => tag.id == DROPS_ENABLED_TAG)
            game := data.broadcastSettings.game.map Game.mk
            title := data.broadcastSettings.title
            timestamp := now }

/-- `Stream.from_directory(cls, channel, data)`: the flatter shape.  Note
that `self.broadcast_id = data["id"]` stores the wire value as-is, with no
`int(...)` coercion (source line 42), and `Game(data["game"])` is built
unconditionally. -/
def Stream.from_directory (data : DirData) (now : Nat) : Stream :=
  { broadcast_id := data.id
    viewer_count := data.viewersCount
    drops_enabled := data.tags.any (fun tag => tag.id == DROPS_ENABLED_TAG)
    game := some (Game.mk data.game)
    title := data.title
    timestamp := now }

/-- The mutable attributes of a `Channel`.  The `_twitch` back-reference is
omitted; the pending asyncio task handle `_pending_stream_up` becomes the
identifier of the scheduled task, `none` when no task is pending. -/
structure Channel where
  id : Int
  name : String
  url : String
  spade_url : Option String
  stream : Option Stream
  pending_stream_up : Option Nat
deriving DecidableEq, Repr

/-- The `online` property: `self.stream is not None`. -/
def Channel.online (c : Channel) : Bool := c.stream.isSome

/-- The `pending_online` property: `self._pending_stream_up is not None`. -/
def Channel.pending_online (c : Channel) : Bool := c.pending_stream_up.isSome

/-- `Channel.get_stream(self)`: issues the GetStreamInfo query (the
response, or the falsy failure value, is the `resp` parameter).  On a
truthy response it assigns `self.id = int(stream_data["id"])`, then
replaces `self.stream` (a fresh `Stream` when `stream_data["stream"]` is
truthy, else `None`).  Returns `self.stream`.  The returned `Channel` is
the post-state, with mutations up to any exception point applied. -/
def Channel.get_stream (c : Channel) (resp : Option GqlResponse) (now : Nat) :
    Channel × Except PyErr (Option Stream) :=
  match resp with
  | none => (c, .ok c.stream)
  | some r =>
    let stream_data := r.user
    match pyInt stream_data.id with
    | none => (c, .error .valueError)
    | some cid =>
      let c := { c with id := cid }
      match stream_data.stream with
      | some _ =>
        match Stream.init stream_data now with
        | .error e => (c, .error e)
        | .ok st =>
          let c := { c with stream := some st }
          (c, .ok c.stream)
      | none =>
        let c := { c with stream := none }
        (c, .ok c.stream)

/-- `Channel.check_online(self)`: `get_stream`, then `stream is not None`. -/
def Channel.check_online (c : Channel) (resp : Option GqlResponse) (now : Nat) :
    Channel × Except PyErr Bool :=
  match c.get_stream resp now with
  | (c, .error e) => (c, .error e)
  | (c, .ok st) => (c, .ok st.isSome)

/-- A channel together with the state of the asyncio scheduler that the
embedding needs: the id the next created task will get, and the set of
task ids that have been cancelled. -/
structure CState where
  c : Channel
  nextTask : Nat
  cancelled : List Nat
deriving DecidableEq, Repr

/-- `Channel.set_online(self)`: returns immediately when already online or
already pending; otherwise creates the `_online_delay` task and stores its
handle in `_pending_stream_up`. -/
def set_online (s : CState) : CState :=
  if s.c.online || s.c.pending_online then s
  else
    { s with
      c := { s.c with pending_stream_up := some s.nextTask }
      nextTask := s.nextTask + 1 }

/-- `Channel.set_offline(self)`: when a task is pending, cancels it and
clears the handle; then unconditionally sets `self.stream = None`. -/
def set_offline (s : CState) : CState :=
  let s :=
    match s.c.pending_stream_up with
    | some t =>
      { s with
        c := { s.c with pending_stream_up := none }
        cancelled := t :: s.cancelled }
    | none => s
  { s with c := { s.c with stream := none } }

/-- The body of the `_online_delay` task with identifier `t`: a cancelled
task never runs (cancellation lands at the `asyncio.sleep` / network await
points, before any of the body's effects).  Otherwise the sleep ends, the
task calls `get_stream`, and then clears `self._pending_stream_up` — unless
`get_stream` raised, in which case the task dies with the exception and the
handle is left in place. -/
def run_online_delay (t : Nat) (resp : Option GqlResponse) (now : Nat) (s : CState) :
    CState :=
  if s.cancelled.contains t then s
  else
    match s.c.get_stream resp now with
    | (c, .error _) => { s with c := c }
    | (c, .ok _) => { s with c := { c with pending_stream_up := none } }

/-- Decimal digit characters of `n`, most significant first (`fuel` bounds
the recursion; callers pass `n + 1`, ample since `n / 10 < n`). -/
def natDigitsAux : Nat → Nat → List Char
  | 0, _ => []
  | _ + 1, 0 => []
  | fuel + 1, n => natDigitsAux fuel (n / 10) ++ [Char.ofNat (48 + n % 10)]

/-- Python's `str(...)` / `repr(...)` of a nonnegative integer. -/
def natRepr (n : Nat) : String :=
  if n = 0 then "0" else String.mk (natDigitsAux (n + 1) n)

/-- Python's `str(...)` of an `int`, as `json.dumps` renders it. -/
def intRepr : Int → String
  | .ofNat n => natRepr n
  | .negSucc n => "-" ++ natRepr (n + 1)

/-- The subset of Python/JSON values the watch payload is built from. -/
inductive Json where
  | str (s : String) : Json
  | int (n : Int) : Json
  | arr (xs : List Json) : Json
  | obj (kvs : List (String × Json)) : Json

/-- Hexadecimal digit character (lowercase), `n < 16`. -/
def hexDigit (n : Nat) : Char :=
  if n < 10 then Char.ofNat (48 + n) else Char.ofNat (87 + n)

/-- The `\uXXXX` escape `json.dumps` emits for a BMP code point. -/
def uEscape (n : Nat) : String :=
  String.mk ['\\', 'u', hexDigit (n / 4096 % 16), hexDigit (n / 256 % 16),
             hexDigit (n / 16 % 16), hexDigit (n % 16)]

/-- How `json.dumps` (default `ensure_ascii=True`) renders one character
inside a string literal.  Code points above the BMP would become surrogate
pairs; no string the code serializes leaves ASCII, so the BMP branch
suffices and the beyond-BMP case reuses `uEscape` on the raw code point. -/
def jsonEscapeChar (c : Char) : String :=
  if c = '"' then "\\\""
  else if c = '\\' then "\\\\"
  else if c = '\n' then "\\n"
  else if c = '\t' then "\\t"
  else if c = '\r' then "\\r"
  else if c.toNat = 8 then "\\b"
  else if c.toNat = 12 then "\\f"
  else if c.toNat < 32 || c.toNat > 126 then uEscape c.toNat
  else String.mk [c]

/-- The body of a `json.dumps` string literal. -/
def jsonEscape (s : String) : String :=
  s.data.foldl (fun acc c => acc ++ jsonEscapeChar c) ""

mutual

/-- `json.dumps(value, separators=(",", ":"))`: compact JSON, dict keys in
insertion order (Python 3.7+ dicts), no whitespace. -/
def Json.dumps : Json → String
  | .str s => "\"" ++ jsonEscape s ++ "\""
  | .int n => intRepr n
  | .arr xs => "[" ++ dumpsList xs ++ "]"
  | .obj kvs => "\x7b" ++ dumpsObj kvs ++ "\x7d"

/-- Comma-joined array elements. -/
def dumpsList : List Json → String
  | [] => ""
  | [x] => Json.dumps x
  | x :: y :: xs => Json.dumps x ++ "," ++ dumpsList (y :: xs)

/-- Comma-joined `"key":value` object members. -/
def dumpsObj : List (String × Json) → String
  | [] => ""
  | [kv] => "\"" ++ jsonEscape kv.1 ++ "\":" ++ Json.dumps kv.2
  | kv :: kv2 :: kvs =>
    "\"" ++ jsonEscape kv.1 ++ "\":" ++ Json.dumps kv.2 ++ "," ++ dumpsObj (kv2 :: kvs)

end

/-- UTF-8 encoding of one character, as a list of byte values. -/
def utf8EncodeChar (c : Char) : List Nat :=
  let n := c.toNat
  if n < 128 then [n]
  else if n < 2048 then [192 + n / 64, 128 + n % 64]
  else if n < 65536 then [224 + n / 4096, 128 + n / 64 % 64, 128 + n % 64]
  else [240 + n / 262144, 128 + n / 4096 % 64, 128 + n / 64 % 64, 128 + n % 64]

/-- Python's `s.encode("utf8")`: the UTF-8 bytes of a string. -/
def utf8Encode (s : String) : List Nat :=
  (s.data.map utf8EncodeChar).flatten

/-- The standard base64 alphabet. -/
def b64Alphabet : List Char :=
  "ABCDEFGHIJKLMNOPQRSTUVWXYZabcdefghijklmnopqrstuvwxyz0123456789+/".data

/-- The alphabet character of a sextet value (`n < 64`). -/
def sextetChar (n : Nat) : Char := b64Alphabet.getD n '?'

/-- The sextet value of an alphabet character, `none` off-alphabet. -/
def charSextet (c : Char) : Option Nat := b64Alphabet.indexOf? c

/-- `base64.b64encode` on a byte list: three bytes to four alphabet
characters, with `=` padding on a short final group. -/
def b64encodeBytes : List Nat → List Char
  | [] => []
  | [a] => [sextetChar (a / 4), sextetChar (a % 4 * 16), '=', '=']
  | [a, b] => [sextetChar (a / 4), sextetChar (a % 4 * 16 + b / 16),
               sextetChar (b % 16 * 4), '=']
  | a :: b :: c :: rest =>
    sextetChar (a / 4) :: sextetChar (a % 4 * 16 + b / 16) ::
    sextetChar (b % 16 * 4 + c / 64) :: sextetChar (c % 64) :: b64encodeBytes rest

/-- Base64 decoding (the inverse direction the spec's testable property
talks about; not part of the Python excerpt): four characters to three
bytes, with `=` padding accepted only on the final group. -/
def b64decodeBytes : List Char → Option (List Nat)
  | [] => some []
  | c1 :: c2 :: c3 :: c4 :: rest =>
    if c3 = '=' ∧ c4 = '=' ∧ rest = [] then
      match charSextet c1, charSextet c2 with
      | some s1, some s2 => some [s1 * 4 + s2 / 16]
      | _, _ => none
    else if c4 = '=' ∧ rest = [] then
      match charSextet c1, charSextet c2, charSextet c3 with
      | some s1, some s2, some s3 =>
        some [s1 * 4 + s2 / 16, s2 % 16 * 16 + s3 / 4]
      | _, _, _ => none
    else
      match charSextet c1, charSextet c2, charSextet c3, charSextet c4,
            b64decodeBytes rest with
      | some s1, some s2, some s3, some s4, some bs =>
        some ((s1 * 4 + s2 / 16) :: (s2 % 16 * 16 + s3 / 4) :: (s3 % 4 * 64 + s4) :: bs)
      | _, _, _, _, _ => none
  | _ => none

/-- `b64encode(s.encode("utf8")).decode("utf8")`: the ASCII text of the
base64 encoding of a string's UTF-8 bytes. -/
def b64encodeStr (s : String) : String :=
  String.mk (b64encodeBytes (utf8Encode s))

/-- The watch payload as a JSON value, literally as `_encode_payload`
builds it: a single-element list holding the event record. -/
def payloadJson (channelId broadcastJson : Json) (userId : Int) : Json :=
  .arr [.obj [("event", .str "minute-watched"),
              ("properties", .obj [("channel_id", channelId),
                                   ("broadcast_id", broadcastJson),
                                   ("player", .str "site"),
                                   ("user_id", .int userId)])]]

/-- A `PyVal` as the JSON value `json.dumps` serializes it as. -/
def PyVal.toJson : PyVal → Json
  | .int n => .int n
  | .str s => .str s

/-- `Channel._encode_payload(self)`: asserts a stream is present, builds
the event list, dumps it compactly, base64-encodes the UTF-8 bytes and
wraps the result as the single-key form map `{"data": encoded}` (embedded
as a one-pair association list).  `user_id` is `self._twitch._user_id`,
passed as the `userId` parameter. -/
def Channel.encode_payload (c : Channel) (userId : Int) :
    Except PyErr (List (String × String)) :=
  match c.stream with
  | none => .error .assertionError
  | some st =>
    let payload := payloadJson (.int c.id) st.broadcast_id.toJson userId
    let json_event := Json.dumps payload
    .ok [("data", b64encodeStr json_event)]

/-- Case-insensitive character comparison, as `re.I` applies to ASCII
literals. -/
def ciEq (p c : Char) : Bool := p.toLower == c.toLower

/-- Matches the literal `pat` case-insensitively at the head of `cs`,
returning the text actually matched (preserving the input's case, as a
regex capture does) and the remainder. -/
def matchCIStr : List Char → List Char → Option (List Char × List Char)
  | [], cs => some ([], cs)
  | _ :: _, [] => none
  | p :: ps, c :: cs =>
    if ciEq p c then (matchCIStr ps cs).map (fun r => (c :: r.1, r.2))
    else none

/-- A hexadecimal digit as the class `[0-9a-f]` under `re.I` accepts. -/
def isHexCI (c : Char) : Bool :=
  c.isDigit || ('a' ≤ c && c ≤ 'f') || ('A' ≤ c && c ≤ 'F')

/-- Matches exactly `n` characters satisfying `p`, returning them and the
remainder. -/
def matchClassN (p : Char → Bool) : Nat → List Char → Option (List Char × List Char)
  | 0, cs => some ([], cs)
  | _ + 1, [] => none
  | n + 1, c :: cs =>
    if p c then (matchClassN p n cs).map (fun r => (c :: r.1, r.2)) else none

/-- The regex of step 1,
`src="(https://static\.twitchcdn\.net/config/settings\.[0-9a-f]{32}\.js)"`
with `re.I`, anchored at the head of `cs`; returns group 1. -/
def matchAt1 (cs : List Char) : Option (List Char) :=
  (matchCIStr "src=\"".data cs).bind fun r1 =>
  (matchCIStr "https://static.twitchcdn.net/config/settings.".data r1.2).bind fun r2 =>
  (matchClassN isHexCI 32 r2.2).bind fun r3 =>
  (matchCIStr ".js".data r3.2).bind fun r4 =>
  match r4.2 with
  | '"' :: _ => some (r2.1 ++ r3.1 ++ r4.1)
  | _ => none

/-- `re.search`: tries the anchored matcher at each position, leftmost
first. -/
def searchAux (f : List Char → Option (List Char)) : List Char → Option (List Char)
  | [] => f []
  | c :: cs =>
    match f (c :: cs) with
    | some r => some r
    | none => searchAux f cs

/-- `re.search` with the step-1 pattern over a page text. -/
def search1 (s : String) : Option String :=
  (searchAux matchAt1 s.data).map String.mk

/-- A word character as `\w` accepts (restricted to ASCII; the URLs the
pattern targets are ASCII). -/
def isWordChar (c : Char) : Bool :=
  c.isAlpha || c.isDigit || c = '_'

/-- The character class of the step-2 pattern: dot, word character, hyphen, or slash. -/
def isClass2 (c : Char) : Bool :=
  c = '.' || isWordChar c || c = '-' || c = '/'

/-- The tail `\.ts` of group 1 followed by the closing `"`, anchored at the
head of `cs`; returns the `.ts` text (the quote is outside the group). -/
def tryDotTs : List Char → Option (List Char)
  | '.' :: t :: s :: '"' :: _ =>
    if ciEq 't' t && ciEq 's' s then some ['.', t, s] else none
  | _ => none

/-- Greedy star-then-suffix matching (class star, then the literal dot-ts, then the quote) with backtracking: prefer consuming another
class character; on failure of the longer attempt, try ending the star
here.  Returns the class characters consumed, then the `.ts` text. -/
def classStarThen : List Char → Option (List Char)
  | [] => none
  | c :: rest =>
    match (if isClass2 c then (classStarThen rest).map (fun m => c :: m) else none) with
    | some m => some m
    | none => tryDotTs (c :: rest)

/-- Greedy plus-then-suffix matching: at least one class character, then the star. -/
def classPlusThen : List Char → Option (List Char)
  | [] => none
  | c :: rest => if isClass2 c then (classStarThen rest).map (fun m => c :: m) else none

/-- The `": ?"` part of the step-2 pattern: a colon was already consumed by
the literal; here the optional single space, then the opening quote. -/
def matchQuoteOptSpace : List Char → Option (List Char)
  | ' ' :: '"' :: rest => some rest
  | '"' :: rest => some rest
  | _ => none

/-- The regex of step 2,
quote spade_url quote, colon, optional space, then the quoted capture group (the video-edge url ending in dot-ts) with `re.I`, anchored
at the head of `cs`; returns group 1. -/
def matchAt2 (cs : List Char) : Option (List Char) :=
  (matchCIStr "\"spade_url\":".data cs).bind fun r1 =>
  (matchQuoteOptSpace r1.2).bind fun r2 =>
  (matchCIStr "https://video-edge-".data r2).bind fun r3 =>
  (classPlusThen r3.2).map fun m => r3.1 ++ m

/-- `re.search` with the step-2 pattern over a script text. -/
def search2 (s : String) : Option String :=
  (searchAux matchAt2 s.data).map String.mk

/-- One HTTP request the embedded code performs. -/
inductive Effect where
  | get (url : String) : Effect
  | post (url : String) : Effect
deriving DecidableEq, Repr

/-- The HTTP collaborator: response text of a GET by url, and the status
code a POST returns. -/
structure HttpEnv where
  pages : String → String
  postStatus : String → Nat

/-- `Channel.get_spade_url(self)`: GET the channel page, regex-extract the
settings script url (step 1), GET the script, regex-extract the spade url
(step 2); each missing match raises a `MinerException` naming its step.
The second component records the GET requests performed, in order. -/
def Channel.get_spade_url (c : Channel) (env : HttpEnv) :
    Except PyErr String × List Effect :=
  let streamer_html := env.pages c.url
  match search1 streamer_html with
  | none => (.error (.miner "Error while spade_url extraction: step #1"), [.get c.url])
  | some streamer_settings =>
    let settings_js := env.pages streamer_settings
    match search2 settings_js with
    | none => (.error (.miner "Error while spade_url extraction: step #2"),
               [.get c.url, .get streamer_settings])
    | some spade => (.ok spade, [.get c.url, .get streamer_settings])

/-- `Channel._send_watch(self)`: returns `None` immediately when not
online; otherwise discovers and caches the spade url if absent, POSTs the
encoded payload to it and returns `status == 204`.  Result: post-state
channel, returned value (`Option Bool`, `none` for Python's `None`) or the
propagated exception, and the trace of HTTP requests performed. -/
def Channel.send_watch (c : Channel) (userId : Int) (env : HttpEnv) :
    Channel × Except PyErr (Option Bool) × List Effect :=
  if !c.online then (c, .ok none, [])
  else
    match c.spade_url with
    | some su =>
      match c.encode_payload userId with
      | .error e => (c, .error e, [])
      | .ok _payload =>
        (c, .ok (some (env.postStatus su == 204)), [.post su])
    | none =>
      match c.get_spade_url env with
      | (.error e, effs) => (c, .error e, effs)
      | (.ok su, effs) =>
        let c := { c with spade_url := some su }
        match c.encode_payload userId with
        | .error e => (c, .error e, effs)
        | .ok _payload =>
          (c, .ok (some (env.postStatus su == 204)), effs ++ [.post su])

/-- Whitespace characters the "no extraneous whitespace" property rules
out of the serialized JSON. -/
def isWsChar (c : Char) : Bool :=
  c = ' ' || c = '\t' || c = '\n' || c = '\r'

/-- A string containing no whitespace at all. -/
def noWs (s : String) : Prop := ∀ c ∈ s.data, isWsChar c = false

instance (s : String) : Decidable (noWs s) :=
  inferInstanceAs (Decidable (∀ c ∈ s.data, isWsChar c = false))

/-- Sample tag carrying the drops-enabled id. -/
def wTag : TagData := { id := DROPS_ENABLED_TAG }

/-- Sample wire stream object (live), with the broadcast id as the wire
string it arrives as. -/
def wStreamData : StreamData :=
  { id := PyVal.str "456", viewersCount := 5, tags := [wTag] }

/-- Sample wire user object reporting a live stream. -/
def wUser : UserData :=
  { id := PyVal.str "123"
    stream := some wStreamData
    broadcastSettings := { game := none, title := "t" } }

/-- Sample truthy GetStreamInfo response. -/
def wResp : GqlResponse := { user := wUser }

/-- Sample wire user object reporting no live stream. -/
def wUserOff : UserData :=
  { id := PyVal.str "123"
    stream := none
    broadcastSettings := { game := none, title := "t" } }

/-- Sample truthy response with no live stream. -/
def wRespOff : GqlResponse := { user := wUserOff }

/-- The Stream value `Stream.init wUser 0` constructs. -/
def wInitStream : Stream :=
  { broadcast_id := PyVal.int 456, viewer_count := 5, drops_enabled := true
    game := none, title := "t", timestamp := 0 }

/-- Sample directory entry whose wire id is the JSON string "456". -/
def wDir : DirData :=
  { id := PyVal.str "456", viewersCount := 5, tags := [wTag]
    game := { name := "g" }, title := "t" }

/-- Sample offline channel. -/
def wChan : Channel :=
  { id := 0, name := "streamer", url := "page-url", spade_url := none
    stream := none, pending_stream_up := none }

/-- Sample online channel (id 123, broadcast 456). -/
def wOnChan : Channel :=
  { id := 123, name := "streamer", url := "page-url", spade_url := none
    stream := some wInitStream, pending_stream_up := none }

/-- Sample scheduler state: online channel, no pending task. -/
def wOnState : CState := { c := wOnChan, nextTask := 1, cancelled := [] }

/-- Sample scheduler state: offline channel with pending task 0. -/
def wPendState : CState :=
  { c := { wChan with pending_stream_up := some 0 }, nextTask := 1, cancelled := [] }

/-- The settings-script url embedded in the sample page text. -/
def wSettingsUrl : String :=
  "https://static.twitchcdn.net/config/settings.0123456789abcdef0123456789abcdef.js"

/-- The spade url embedded in the sample script text. -/
def wSpadeUrl : String := "https://video-edge-ab12.cde.ts"

/-- Sample channel page text containing the settings-script tag. -/
def wPage : String := "<script src=\"" ++ wSettingsUrl ++ "\"></script>"

/-- Sample settings-script text containing the spade_url assignment. -/
def wScript : String := "x;\"spade_url\": \"" ++ wSpadeUrl ++ "\";y"

/-- Sample HTTP environment serving the sample page and script. -/
def wEnv : HttpEnv :=
  { pages := fun url =>
      if url = "page-url" then wPage
      else if url = wSettingsUrl then wScript
      else ""
    postStatus := fun _ => 204 }

/-! ## Theorems -/

/-- C10: when the GraphQL query executor yields an empty/falsy response,
`get_stream` leaves the Channel entirely unchanged — `id` keeps its prior
value and `stream` is neither cleared nor replaced — and it returns the
prior (possibly stale) stream rather than setting `stream = None` or
raising. -/
theorem C10_get_stream_falsy_noop (c : Channel) (now : Nat) :
    c.get_stream none now = (c, .ok c.stream) := rfl

/-- C2: `set_online` is idempotent: when the channel is already online or
already pending-online it is a no-op that changes no state and schedules no
task, and calling it twice in a row equals calling it once, so at most one
pending task is ever scheduled. -/
theorem C2_set_online_idempotent (s : CState) :
    (s.c.online = true ∨ s.c.pending_online = true → set_online s = s) ∧
    set_online (set_online s) = set_online s := by
  constructor
  · intro h
    have hc : (s.c.online || s.c.pending_online) = true := by
      rcases h with h | h <;> simp [h]
    simp [set_online, hc]
  · by_cases hc : (s.c.online || s.c.pending_online) = true
    · simp [set_online, hc]
    · have h1 : set_online s =
          { s with c := { s.c with pending_stream_up := some s.nextTask }
                   nextTask := s.nextTask + 1 } := by
        unfold set_online
        rw [if_neg]
        simpa using hc
      rw [h1]
      unfold set_online
      rw [if_pos]
      simp [Channel.online, Channel.pending_online]

/-- C2 witness: on a concrete already-online state, `set_online` is the
identity and a second call adds nothing. -/
theorem C2_set_online_idempotent_witness :
    wOnState.c.online = true ∧ set_online wOnState = wOnState ∧
      set_online (set_online wOnState) = set_online wOnState :=
  ⟨rfl, (C2_set_online_idempotent wOnState).1 (Or.inl rfl),
    (C2_set_online_idempotent wOnState).2⟩

/-- C1: from every prior state, `set_offline` results in `online = false`
and `pending_online = false` (clearing the pending-task reference and
setting the stream to `None`), and it cancels any previously pending
confirmation task, so that task firing afterwards is a no-op and can never
set `stream` to a non-`None` value. -/
theorem C1_set_offline_forces_offline (s : CState) :
    (set_offline s).c.online = false ∧
    (set_offline s).c.pending_online = false ∧
    (set_offline s).c.stream = none ∧
    (set_offline s).c.pending_stream_up = none ∧
    (∀ t, s.c.pending_stream_up = some t →
      (set_offline s).cancelled.contains t = true ∧
      ∀ resp now, run_online_delay t resp now (set_offline s) = set_offline s ∧
        (run_online_delay t resp now (set_offline s)).c.stream = none) := by
  have hoff : (set_offline s).c.stream = none := by
    cases hp : s.c.pending_stream_up <;> simp [set_offline, hp]
  have hpend : (set_offline s).c.pending_stream_up = none := by
    cases hp : s.c.pending_stream_up <;> simp [set_offline, hp]
  refine ⟨by simp [Channel.online, hoff], by simp [Channel.pending_online, hpend],
    hoff, hpend, ?_⟩
  intro t ht
  have hco : (set_offline s).cancelled.contains t = true := by
    simp [set_offline, ht]
  refine ⟨hco, ?_⟩
  intro resp now
  have hrun : run_online_delay t resp now (set_offline s) = set_offline s := by
    unfold run_online_delay
    rw [hco]
    simp
  exact ⟨hrun, by rw [hrun]; exact hoff⟩

/-- C1 witness: on a concrete pending-online state, `set_offline` forces
offline and the cancelled task's later firing changes nothing. -/
theorem C1_set_offline_forces_offline_witness :
    wPendState.c.pending_stream_up = some 0 ∧
    (set_offline wPendState).c.online = false ∧
    (set_offline wPendState).c.pending_online = false ∧
    (set_offline wPendState).cancelled.contains 0 = true ∧
    run_online_delay 0 (some wResp) 7 (set_offline wPendState) = set_offline wPendState :=
  ⟨rfl, (C1_set_offline_forces_offline wPendState).1,
    (C1_set_offline_forces_offline wPendState).2.1,
    ((C1_set_offline_forces_offline wPendState).2.2.2.2 0 rfl).1,
    (((C1_set_offline_forces_offline wPendState).2.2.2.2 0 rfl).2 (some wResp) 7).1⟩

/-- C4: the delayed online-confirmation task, when it has not been
cancelled, performs the reconciliation and then clears the pending-task
reference, for every outcome of the embedded reconciliation that completes
(live stream found, no stream found, or the falsy result a failed
query/transport yields); afterwards `pending_online = false`. -/
theorem C4_online_delay_clears_pending (s : CState) (t : Nat)
    (resp : Option GqlResponse) (now : Nat) (v : Option Stream)
    (hc : s.cancelled.contains t = false)
    (hok : (s.c.get_stream resp now).2 = .ok v) :
    run_online_delay t resp now s =
      { s with c := { (s.c.get_stream resp now).1 with pending_stream_up := none } } ∧
    (run_online_delay t resp now s).c.pending_online = false := by
  have hrun : run_online_delay t resp now s =
      { s with c := { (s.c.get_stream resp now).1 with pending_stream_up := none } } := by
    unfold run_online_delay
    rw [hc]
    rcases hg : s.c.get_stream resp now with ⟨c1, res⟩
    rw [hg] at hok
    simp only at hok
    cases res with
    | error e => cases hok
    | ok _ => simp
  exact ⟨hrun, by rw [hrun]; simp [Channel.pending_online]⟩

/-- C4 witness: a concrete non-cancelled pending task whose reconciliation
sees the falsy failure result still ends with no pending task. -/
theorem C4_online_delay_clears_pending_witness :
    wPendState.cancelled.contains 0 = false ∧
    (wPendState.c.get_stream none 3).2 = .ok none ∧
    (run_online_delay 0 none 3 wPendState).c.pending_online = false :=
  ⟨rfl, rfl,
    (C4_online_delay_clears_pending wPendState 0 none 3 none rfl rfl).2⟩

/-- C3: a `get_stream` on a truthy response reporting a live stream leaves
the channel online with `id` equal to the integer coerced from the
response's channel id; on a truthy response reporting no live stream it
sets `stream` to `None`, hence offline.  Either way it returns the
resulting optional Stream. -/
theorem C3_reconcile (c : Channel) (r : GqlResponse) (now : Nat) (cid : Int)
    (hid : pyInt r.user.id = some cid) :
    (∀ sd, r.user.stream = some sd → pyInt sd.id ≠ none →
      (c.get_stream (some r) now).1.online = true ∧
      (c.get_stream (some r) now).1.id = cid ∧
      (c.get_stream (some r) now).2 = .ok (c.get_stream (some r) now).1.stream) ∧
    (r.user.stream = none →
      (c.get_stream (some r) now).1.stream = none ∧
      (c.get_stream (some r) now).1.online = false ∧
      (c.get_stream (some r) now).2 = .ok (c.get_stream (some r) now).1.stream) := by
  constructor
  · intro sd hsd hbid
    obtain ⟨bid, hbid⟩ := Option.ne_none_iff_exists'.mp hbid
    simp [Channel.get_stream, hid, hsd, Stream.init, hbid, Channel.online]
  · intro hnone
    simp [Channel.get_stream, hid, hnone, Channel.online]

/-- C3 witness: the concrete live response yields an online channel with id
123; the concrete no-stream response yields an offline one. -/
theorem C3_reconcile_witness :
    pyInt wResp.user.id = some 123 ∧ wResp.user.stream = some wStreamData ∧
    pyInt wStreamData.id ≠ none ∧
    ((wChan.get_stream (some wResp) 0).1.online = true ∧
     (wChan.get_stream (some wResp) 0).1.id = 123 ∧
     (wChan.get_stream (some wResp) 0).2 = .ok (wChan.get_stream (some wResp) 0).1.stream) ∧
    pyInt wRespOff.user.id = some 123 ∧ wRespOff.user.stream = none ∧
    ((wChan.get_stream (some wRespOff) 0).1.stream = none ∧
     (wChan.get_stream (some wRespOff) 0).1.online = false ∧
     (wChan.get_stream (some wRespOff) 0).2 = .ok (wChan.get_stream (some wRespOff) 0).1.stream) :=
  ⟨rfl, rfl, by decide,
    (C3_reconcile wChan wResp 0 123 rfl).1 wStreamData rfl (by decide),
    rfl, rfl, (C3_reconcile wChan wRespOff 0 123 rfl).2 rfl⟩

/-- C5: for both constructors, a constructed Stream's `drops_enabled` is
true exactly when some entry of the input tag collection carries the
reserved drops-enabled tag id. -/
theorem C5_drops_enabled (now : Nat) :
    (∀ (ud : UserData) (sd : StreamData) (st : Stream),
      ud.stream = some sd → Stream.init ud now = .ok st →
      (st.drops_enabled = true ↔ ∃ tag ∈ sd.tags, tag.id = DROPS_ENABLED_TAG)) ∧
    (∀ d : DirData,
      ((Stream.from_directory d now).drops_enabled = true ↔
        ∃ tag ∈ d.tags, tag.id = DROPS_ENABLED_TAG)) := by
  constructor
  · intro ud sd st hsd hinit
    unfold Stream.init at hinit
    rw [hsd] at hinit
    simp only at hinit
    rcases hb : pyInt sd.id with _ | bid <;> rw [hb] at hinit
    · cases hinit
    · cases hinit
      simp [List.any_eq_true]
  · intro d
    simp [Stream.from_directory, List.any_eq_true]

/-- C5 witness: both constructors evaluated on concrete tagged inputs. -/
theorem C5_drops_enabled_witness :
    wUser.stream = some wStreamData ∧ Stream.init wUser 0 = .ok wInitStream ∧
    (wInitStream.drops_enabled = true ↔ ∃ tag ∈ wStreamData.tags, tag.id = DROPS_ENABLED_TAG) ∧
    ((Stream.from_directory wDir 0).drops_enabled = true ↔
      ∃ tag ∈ wDir.tags, tag.id = DROPS_ENABLED_TAG) :=
  ⟨rfl, rfl, (C5_drops_enabled 0).1 wUser wStreamData wInitStream rfl rfl,
    (C5_drops_enabled 0).2 wDir⟩

/-- C6: evaluating both constructors on concrete wire data whose id field
is the JSON string "456": `Stream.__init__` coerces it to the integer 456,
but `Stream.from_directory` stores the string unchanged — `broadcast_id`
is not an integer there, contradicting the claim that both wire shapes are
coerced to a single integer representation. -/
theorem C6_directory_id_uncoerced :
    (Stream.from_directory wDir 0).broadcast_id = PyVal.str "456" ∧
    (Stream.init wUser 0).map Stream.broadcast_id = .ok (PyVal.int 456) :=
  ⟨rfl, rfl⟩

/-- C8: `_send_watch` on a channel that is offline returns `None`
immediately: it performs no HTTP request at all (no discovery, no POST)
and leaves every channel field, including the cached spade url,
unchanged. -/
theorem C8_send_watch_offline_noop (c : Channel) (userId : Int) (env : HttpEnv)
    (h : c.stream = none) :
    c.send_watch userId env = (c, .ok none, []) := by
  unfold Channel.send_watch
  have : c.online = false := by simp [Channel.online, h]
  rw [this]
  simp

/-- C8 witness: the concrete offline channel, watch tick is a no-op. -/
theorem C8_send_watch_offline_noop_witness :
    wChan.stream = none ∧ wChan.send_watch 789 wEnv = (wChan, .ok none, []) :=
  ⟨rfl, C8_send_watch_offline_noop wChan 789 wEnv rfl⟩

/-- C9: endpoint discovery fails with the step-1 extraction error, without
fetching the script, whenever the page text has no settings-script match;
fails with the distinct step-2 extraction error whenever the fetched script
text has no spade_url match; and returns exactly the matched spade url when
both patterns match. -/
theorem C9_spade_url_extraction (c : Channel) (env : HttpEnv) :
    (search1 (env.pages c.url) = none →
      c.get_spade_url env =
        (.error (.miner "Error while spade_url extraction: step #1"), [.get c.url])) ∧
    (∀ u, search1 (env.pages c.url) = some u →
      (search2 (env.pages u) = none →
        c.get_spade_url env =
          (.error (.miner "Error while spade_url extraction: step #2"),
            [.get c.url, .get u])) ∧
      (∀ sp, search2 (env.pages u) = some sp →
        c.get_spade_url env = (.ok sp, [.get c.url, .get u]))) ∧
    PyErr.miner "Error while spade_url extraction: step #1" ≠
      PyErr.miner "Error while spade_url extraction: step #2" := by
  refine ⟨?_, ?_, by decide⟩
  · intro h1
    simp only [Channel.get_spade_url, h1]
  · intro u h1
    constructor
    · intro h2
      simp only [Channel.get_spade_url, h1, h2]
    · intro sp h2
      simp only [Channel.get_spade_url, h1, h2]

/-- C9 witness: on the concrete page and script, both patterns match and
discovery returns exactly the embedded spade url, having fetched the page
and then the script. -/
theorem C9_spade_url_extraction_witness :
    search1 (wEnv.pages wChan.url) = some wSettingsUrl ∧
    search2 (wEnv.pages wSettingsUrl) = some wSpadeUrl ∧
    wChan.get_spade_url wEnv = (.ok wSpadeUrl, [.get wChan.url, .get wSettingsUrl]) :=
  ⟨by decide, by decide,
    ((C9_spade_url_extraction wChan wEnv).2.1 wSettingsUrl (by decide)).2 wSpadeUrl (by decide)⟩

/-- Alphabet lookup inverts alphabet indexing, on `Fin 64`. -/
theorem charSextet_sextetChar_fin :
    ∀ m : Fin 64, charSextet (sextetChar m.val) = some m.val := by decide

/-- Alphabet lookup inverts alphabet indexing. -/
theorem charSextet_sextetChar {n : Nat} (h : n < 64) :
    charSextet (sextetChar n) = some n :=
  charSextet_sextetChar_fin ⟨n, h⟩

/-- No alphabet character is the padding character, on `Fin 64`. -/
theorem sextetChar_ne_pad_fin :
    ∀ m : Fin 64, (sextetChar m.val == '=') = false := by decide

/-- No alphabet character is the padding character. -/
theorem sextetChar_ne_pad {n : Nat} (h : n < 64) : sextetChar n ≠ '=' := by
  have hf := sextetChar_ne_pad_fin ⟨n, h⟩
  simpa using hf

/-- Base64 decoding inverts base64 encoding on byte lists. -/
theorem b64decode_encode :
    ∀ bs : List Nat, (∀ b ∈ bs, b < 256) →
      b64decodeBytes (b64encodeBytes bs) = some bs
  | [], _ => rfl
  | [a], h => by
    have ha : a < 256 := h a (by simp)
    have h1 : a / 4 < 64 := by omega
    have h2 : a % 4 * 16 < 64 := by omega
    simp only [b64encodeBytes, b64decodeBytes]
    rw [if_pos (by simp), charSextet_sextetChar h1, charSextet_sextetChar h2]
    simp only [Option.some.injEq, List.cons.injEq, and_true]
    omega
  | [a, b], h => by
    have ha : a < 256 := h a (by simp)
    have hb : b < 256 := h b (by simp)
    have h1 : a / 4 < 64 := by omega
    have h2 : a % 4 * 16 + b / 16 < 64 := by omega
    have h3 : b % 16 * 4 < 64 := by omega
    simp only [b64encodeBytes, b64decodeBytes]
    rw [if_neg (by simp [sextetChar_ne_pad h3]), if_pos (by simp),
      charSextet_sextetChar h1, charSextet_sextetChar h2, charSextet_sextetChar h3]
    simp only [Option.some.injEq, List.cons.injEq, and_true]
    omega
  | a :: b :: c :: rest, h => by
    have ha : a < 256 := h a (by simp)
    have hb : b < 256 := h b (by simp)
    have hc : c < 256 := h c (by simp)
    have hrest : ∀ x ∈ rest, x < 256 := fun x hx => h x (by simp [hx])
    have h1 : a / 4 < 64 := by omega
    have h2 : a % 4 * 16 + b / 16 < 64 := by omega
    have h3 : b % 16 * 4 + c / 64 < 64 := by omega
    have h4 : c % 64 < 64 := by omega
    simp only [b64encodeBytes, b64decodeBytes]
    rw [if_neg (by simp [sextetChar_ne_pad h3]),
      if_neg (by simp [sextetChar_ne_pad h4]),
      charSextet_sextetChar h1, charSextet_sextetChar h2,
      charSextet_sextetChar h3, charSextet_sextetChar h4,
      b64decode_encode rest hrest]
    simp only [Option.some.injEq, List.cons.injEq]
    refine ⟨by omega, by omega, by omega, trivial⟩

/-- Every byte of a UTF-8 encoded character fits in a byte. -/
theorem utf8EncodeChar_lt_256 (c : Char) : ∀ b ∈ utf8EncodeChar c, b < 256 := by
  intro b hb
  have hval : c.toNat < 1114112 := by
    have hv := c.valid
    unfold UInt32.isValidChar Nat.isValidChar at hv
    have heq : c.toNat = c.val.toNat := rfl
    rcases hv with hv | hv <;> omega
  simp only [utf8EncodeChar] at hb
  split_ifs at hb <;> simp at hb <;> omega

/-- Every byte of a UTF-8 encoded string fits in a byte. -/
theorem utf8Encode_lt_256 (s : String) : ∀ b ∈ utf8Encode s, b < 256 := by
  intro b hb
  unfold utf8Encode at hb
  simp only [List.mem_flatten, List.mem_map] at hb
  obtain ⟨l, ⟨c, _, rfl⟩, hbl⟩ := hb
  exact utf8EncodeChar_lt_256 c b hbl

/-- Whitespace-freeness is preserved by concatenation. -/
theorem noWs_append {s t : String} (hs : noWs s) (ht : noWs t) : noWs (s ++ t) := by
  intro ch hch
  have hdata : (s ++ t).data = s.data ++ t.data := String.data_append s t
  rw [hdata] at hch
  rcases List.mem_append.mp hch with hm | hm
  · exact hs ch hm
  · exact ht ch hm

/-- A decimal digit character is not whitespace. -/
theorem isWsChar_digit {n : Nat} (h : n < 10) :
    isWsChar (Char.ofNat (48 + n)) = false := by
  interval_cases n <;> decide

/-- Digit runs contain no whitespace. -/
theorem noWs_natDigitsAux (fuel : Nat) :
    ∀ n, ∀ c ∈ natDigitsAux fuel n, isWsChar c = false := by
  induction fuel with
  | zero => intro n c hc; cases hc
  | succ f ih =>
    intro n c hc
    cases n with
    | zero => cases hc
    | succ m =>
      unfold natDigitsAux at hc
      rcases List.mem_append.mp hc with hm | hm
      · exact ih _ c hm
      · rw [List.mem_singleton] at hm
        subst hm
        exact isWsChar_digit (Nat.mod_lt _ (by omega))

/-- The decimal rendering of a natural number contains no whitespace. -/
theorem noWs_natRepr (n : Nat) : noWs (natRepr n) := by
  unfold natRepr
  split_ifs with h
  · decide
  · intro c hc
    exact noWs_natDigitsAux _ _ c hc

/-- The decimal rendering of an integer contains no whitespace. -/
theorem noWs_intRepr (n : Int) : noWs (intRepr n) := by
  cases n with
  | ofNat m => exact noWs_natRepr m
  | negSucc m =>
    unfold intRepr
    exact noWs_append (by decide) (noWs_natRepr _)

/-- The compact serialization of the watch payload has no whitespace. -/
theorem noWs_dumps_payload (cid bid userId : Int) :
    noWs (Json.dumps (payloadJson (.int cid) (.int bid) userId)) := by
  unfold payloadJson
  simp only [Json.dumps, dumpsList, dumpsObj]
  repeat' first
    | exact noWs_intRepr _
    | apply noWs_append
    | decide

/-- C7: for an online channel with channel id `cid`, current broadcast id
`bid` and user id `userId`, `_encode_payload` yields exactly the single-key
form map from "data" to the base64 of the UTF-8 bytes of the compact
serialization of the single-element event list
(event "minute-watched"; properties channel_id, broadcast_id, player
"site", user_id); base64-decoding that entry recovers exactly those UTF-8
bytes, and the JSON text prior to base64 contains no whitespace at all. -/
theorem C7_watch_payload (ch : Channel) (st : Stream) (cid bid userId : Int)
    (hst : ch.stream = some st) (hb : st.broadcast_id = PyVal.int bid)
    (hcid : ch.id = cid) :
    ch.encode_payload userId =
      .ok [("data", b64encodeStr (Json.dumps (payloadJson (.int cid) (.int bid) userId)))] ∧
    b64decodeBytes (b64encodeBytes (utf8Encode
        (Json.dumps (payloadJson (.int cid) (.int bid) userId)))) =
      some (utf8Encode (Json.dumps (payloadJson (.int cid) (.int bid) userId))) ∧
    payloadJson (.int cid) (.int bid) userId =
      .arr [.obj [("event", .str "minute-watched"),
        ("properties", .obj [("channel_id", .int cid), ("broadcast_id", .int bid),
          ("player", .str "site"), ("user_id", .int userId)])]] ∧
    noWs (Json.dumps (payloadJson (.int cid) (.int bid) userId)) := by
  refine ⟨?_, b64decode_encode _ (utf8Encode_lt_256 _), rfl,
    noWs_dumps_payload cid bid userId⟩
  simp only [Channel.encode_payload, hst, hb, hcid, PyVal.toJson, b64encodeStr]

/-- C7 witness: the concrete online channel with id 123, broadcast 456 and
user id 789. -/
theorem C7_watch_payload_witness :
    wOnChan.stream = some wInitStream ∧
    wInitStream.broadcast_id = PyVal.int 456 ∧
    wOnChan.id = 123 ∧
    wOnChan.encode_payload 789 =
      .ok [("data", b64encodeStr (Json.dumps (payloadJson (.int 123) (.int 456) 789)))] ∧
    noWs (Json.dumps (payloadJson (.int 123) (.int 456) 789)) :=
  ⟨rfl, rfl, rfl,
    (C7_watch_payload wOnChan wInitStream 123 456 789 rfl rfl rfl).1,
    (C7_watch_payload wOnChan wInitStream 123 456 789 rfl rfl rfl).2.2.2⟩

end Tdm
